import Mathlib

/-!
Shallow embedding of `src/src/camFusion_Student.cpp` (camera/lidar fusion
for time-to-collision estimation) and proofs about its components.

Modelling conventions:
* C++ `double`/`float` arithmetic is idealised as exact arithmetic over `ℚ`
  (and over `ℝ` where the code takes Euclidean norms, i.e. square roots).
* `cv::Rect` has `int` fields; a `double → int` assignment in C++ truncates
  toward zero, modelled by `truncQ`.
* `std::vector::at` throws on an out-of-range index and `operator[]` is
  undefined behaviour there; both are modelled as an explicit failure value
  (`Option`/`Except`/an `aborted` flag), so that a failing access is visible
  in the result type rather than silently defined.
* A `double` result that C++ produces as a non-finite value (`NAN`, or an
  infinity from dividing by zero) is modelled as `none`.
-/

/-- Truncation toward zero, the semantics of a C++ `double` to `int` cast. -/
def truncQ (q : ℚ) : ℤ :=
  if 0 ≤ q then ⌊q⌋ else ⌈q⌉

/-- `cv::Rect` with `int` fields, as used for bounding-box ROIs. -/
structure Rect where
  x : ℤ
  y : ℤ
  width : ℤ
  height : ℤ
deriving DecidableEq

/-- `cv::Rect::contains` on an integer point:
`x <= pt.x && pt.x < x + width && y <= pt.y && pt.y < y + height`. -/
def Rect.containsI (r : Rect) (pt : ℤ × ℤ) : Bool :=
  decide (r.x ≤ pt.1 ∧ pt.1 < r.x + r.width ∧ r.y ≤ pt.2 ∧ pt.2 < r.y + r.height)

/-- `cv::Rect::contains` applied to a (real-valued) keypoint location,
modelled by comparing the exact rational coordinates against the integer
rectangle bounds; `x + width` and `y + height` are `int` additions in C++.
(The concrete inputs used below have integer-valued keypoint coordinates,
where this agrees exactly with the C++ conversion of the point.) -/
def Rect.containsQ (r : Rect) (pt : ℚ × ℚ) : Bool :=
  decide ((r.x : ℚ) ≤ pt.1 ∧ pt.1 < ((r.x + r.width : ℤ) : ℚ) ∧
    (r.y : ℚ) ≤ pt.2 ∧ pt.2 < ((r.y + r.height : ℤ) : ℚ))

/-- `cv::KeyPoint`: only the pixel location `pt` is ever read by this code;
the remaining metadata (size, angle, response, octave, class id) is omitted. -/
structure KeyPoint where
  ptx : ℚ
  pty : ℚ
deriving DecidableEq

/-- `cv::DMatch`: only the two indices into the per-frame keypoint sequences
are read (`queryIdx` = previous frame, `trainIdx` = current frame).  They are
C++ `int`s, hence `ℤ`. -/
structure DMatch where
  queryIdx : ℤ
  trainIdx : ℤ
deriving DecidableEq

/-- `LidarPoint` from `dataStructures.h`: 3D position and reflectivity. -/
structure LidarPoint where
  x : ℚ
  y : ℚ
  z : ℚ
  r : ℚ
deriving DecidableEq

/-- `BoundingBox` from `dataStructures.h`: the fields read or written by
`camFusion_Student.cpp` (2D ROI, identifier, and the three owned
collections populated by association). -/
structure BoundingBox where
  boxID : ℤ
  roi : Rect
  lidarPoints : List LidarPoint
  kptMatches : List DMatch
  keypoints : List KeyPoint
deriving DecidableEq

/-- Indexing a list by a C++ `int` with `std::vector::at`-style checking:
a negative index or an index past the end fails. -/
def atI? {α : Type} (l : List α) (i : ℤ) : Option α :=
  if 0 ≤ i then l.get? i.toNat else none

/-- A 4-vector of doubles (homogeneous 3D point). -/
structure Vec4 where
  v0 : ℚ
  v1 : ℚ
  v2 : ℚ
  v3 : ℚ
deriving DecidableEq

/-- A 3-vector of doubles (projected homogeneous pixel). -/
structure Vec3 where
  v0 : ℚ
  v1 : ℚ
  v2 : ℚ
deriving DecidableEq

/-- A 4x4 calibration matrix (`R_rect_xx`, `RT`). -/
structure Mat44 where
  a00 : ℚ
  a01 : ℚ
  a02 : ℚ
  a03 : ℚ
  a10 : ℚ
  a11 : ℚ
  a12 : ℚ
  a13 : ℚ
  a20 : ℚ
  a21 : ℚ
  a22 : ℚ
  a23 : ℚ
  a30 : ℚ
  a31 : ℚ
  a32 : ℚ
  a33 : ℚ
deriving DecidableEq

/-- A 3x4 projection matrix (`P_rect_xx`). -/
structure Mat34 where
  a00 : ℚ
  a01 : ℚ
  a02 : ℚ
  a03 : ℚ
  a10 : ℚ
  a11 : ℚ
  a12 : ℚ
  a13 : ℚ
  a20 : ℚ
  a21 : ℚ
  a22 : ℚ
  a23 : ℚ
deriving DecidableEq

def Mat44.apply (M : Mat44) (v : Vec4) : Vec4 :=
  ⟨M.a00 * v.v0 + M.a01 * v.v1 + M.a02 * v.v2 + M.a03 * v.v3,
   M.a10 * v.v0 + M.a11 * v.v1 + M.a12 * v.v2 + M.a13 * v.v3,
   M.a20 * v.v0 + M.a21 * v.v1 + M.a22 * v.v2 + M.a23 * v.v3,
   M.a30 * v.v0 + M.a31 * v.v1 + M.a32 * v.v2 + M.a33 * v.v3⟩

def Mat34.apply (M : Mat34) (v : Vec4) : Vec3 :=
  ⟨M.a00 * v.v0 + M.a01 * v.v1 + M.a02 * v.v2 + M.a03 * v.v3,
   M.a10 * v.v0 + M.a11 * v.v1 + M.a12 * v.v2 + M.a13 * v.v3,
   M.a20 * v.v0 + M.a21 * v.v1 + M.a22 * v.v2 + M.a23 * v.v3⟩

/-- The identity 4x4 matrix, used as a concrete calibration input. -/
def idMat44 : Mat44 :=
  ⟨1, 0, 0, 0, 0, 1, 0, 0, 0, 0, 1, 0, 0, 0, 0, 1⟩

/-- The 3x4 matrix `[I | 0]`, used as a concrete projection input. -/
def idMat34 : Mat34 :=
  ⟨1, 0, 0, 0, 0, 1, 0, 0, 0, 0, 1, 0⟩

/-- The homogeneous image-space vector `Y = P_rect_xx * R_rect_xx * RT * X`
computed in `clusterLidarWithROI` (lines 24-30).  The code multiplies the
matrices first; by associativity of matrix application this equals applying
them to the vector right-to-left, which is how it is written here. -/
def projectY (P : Mat34) (R RT : Mat44) (p : LidarPoint) : Vec3 :=
  Mat34.apply P (Mat44.apply R (Mat44.apply RT ⟨p.x, p.y, p.z, 1⟩))

/-- The projected pixel `pt` of `clusterLidarWithROI` (lines 31-33).
The code divides by `Y.at<double>(0, 2)`: on the 3x1 result matrix this
address aliases element `(2,0)` (row-major contiguous layout), i.e. the
transformed depth `v2`.  The division is unguarded in the source; the model
uses the total rational division, in which a zero depth yields the junk
pixel `(0,0)` where C++ would produce a non-finite quotient whose `int`
conversion is undefined.  `cv::Point` has `int` fields, so each coordinate
is truncated. -/
def projectPoint (P : Mat34) (R RT : Mat44) (p : LidarPoint) : ℤ × ℤ :=
  let Y := projectY P R RT p
  (truncQ (Y.v0 / Y.v2), truncQ (Y.v1 / Y.v2))

/-- The shrunk box of `clusterLidarWithROI` (lines 39-43): each field is a
`double` expression assigned to the `int` field of `smallerBox`. -/
def shrinkRect (s : ℚ) (r : Rect) : Rect :=
  { x := truncQ ((r.x : ℚ) + s * (r.width : ℚ) / 2)
  , y := truncQ ((r.y : ℚ) + s * (r.height : ℚ) / 2)
  , width := truncQ ((r.width : ℚ) * (1 - s))
  , height := truncQ ((r.height : ℚ) * (1 - s)) }

/-- Whether a bounding box's shrunk ROI encloses the projected point
(lines 39-49). -/
def enclosesB (s : ℚ) (pt : ℤ × ℤ) (b : BoundingBox) : Bool :=
  (shrinkRect s b.roi).containsI pt

def pushLidar (p : LidarPoint) (b : BoundingBox) : BoundingBox :=
  { b with lidarPoints := b.lidarPoints ++ [p] }

/-- One iteration of the outer point loop of `clusterLidarWithROI`
(lines 21-60): project the point, collect the enclosing shrunk boxes, and
append the point to the unique enclosing box when there is exactly one. -/
def clusterStep (s : ℚ) (P : Mat34) (R RT : Mat44)
    (bs : List BoundingBox) (p : LidarPoint) : List BoundingBox :=
  let pt := projectPoint P R RT p
  if (bs.filter (enclosesB s pt)).length = 1 then
    bs.map (fun b => if enclosesB s pt b then pushLidar p b else b)
  else
    bs

/-- `clusterLidarWithROI` (lines 15-61): associate each lidar point with at
most one bounding box.  The C++ mutates the box vector in place; the model
returns the updated vector. -/
def clusterLidarWithROI (bs : List BoundingBox) (pts : List LidarPoint)
    (s : ℚ) (P : Mat34) (R RT : Mat44) : List BoundingBox :=
  pts.foldl (clusterStep s P R RT) bs

/-- Whether the lidar point `p` ends up assigned to a box whose ROI is `r`,
given the full ROI list `rois` of the frame: its projection must fall in
the shrunk `r` and in exactly one shrunk ROI of the frame overall. -/
def assignedPred (s : ℚ) (P : Mat34) (R RT : Mat44)
    (rois : List Rect) (r : Rect) (p : LidarPoint) : Bool :=
  (shrinkRect s r).containsI (projectPoint P R RT p) &&
    decide ((rois.filter
      (fun r2 => (shrinkRect s r2).containsI (projectPoint P R RT p))).length = 1)

/-- The points of `pts` that end up assigned to a box whose ROI is `r`. -/
def assignedPoints (s : ℚ) (P : Mat34) (R RT : Mat44)
    (rois : List Rect) (r : Rect) (pts : List LidarPoint) : List LidarPoint :=
  pts.filter (assignedPred s P R RT rois r)

/-- `clusterKptMatchesWithROI` (lines 134-150): the loop runs from
`kptMatches.begin() + 1` to `kptMatches.end()`, i.e. over `kptMatches.drop 1`
— the first match of the list is never examined.  (On an empty match list
`begin() + 1` is undefined behaviour in C++; the model treats the iteration
as empty, and no claim below depends on that case.)  Both keypoint lookups
use `std::vector::at`, which throws on an out-of-range index; a thrown
exception is modelled as `none`.  The previous-frame keypoint is fetched
(and can therefore throw) but is never used afterwards. -/
def clusterKptMatchesWithROI (boundingBox : BoundingBox)
    (kptsPrev kptsCurr : List KeyPoint) (kptMatches : List DMatch) :
    Option BoundingBox :=
  (kptMatches.drop 1).foldlM (fun b m => do
    let kpOuterCurr ← atI? kptsCurr m.trainIdx
    let _kpOuterPrev ← atI? kptsPrev m.queryIdx
    if b.roi.containsQ (kpOuterCurr.ptx, kpOuterCurr.pty) then
      pure { b with kptMatches := b.kptMatches ++ [m]
                  , keypoints := b.keypoints ++ [kpOuterCurr] }
    else
      pure b) boundingBox

/-- `std::numeric_limits<double>::epsilon()`, the threshold of the
`distPrev` filter in `computeTTCCamera` (line 180). -/
def epsDouble : ℚ := 1 / 2 ^ 52

/-- `minDist = 100.0`, the minimum required current-frame separation in
`computeTTCCamera` (line 170). -/
def minDist : ℚ := 100

/-- Squared Euclidean pixel distance between two keypoints.  `cv::norm` of
the point difference is the (real) square root of this value; the model
keeps the square, which is rational, and compares it against squared
thresholds (legitimate because distances and both thresholds are
nonnegative). -/
def distSq (a b : KeyPoint) : ℚ :=
  (a.ptx - b.ptx) ^ 2 + (a.pty - b.pty) ^ 2

/-- The double loop of `computeTTCCamera` (lines 160-187) collecting, in
iteration order, the squared distance pairs `(distPrev², distCurr²)` that
survive the filter `distPrev > epsilon && distCurr >= minDist` — expressed
on squares as `distPrev² > epsilon²` and `distCurr² >= minDist²`.  The
outer iterator runs from `begin()` to `end() - 1` (`dropLast`), the inner
from `begin() + 1` to `end()` (`drop 1`).  (On an empty match list
`end() - 1` is undefined behaviour in C++; the model treats the iteration
as empty.)  Keypoint lookups use `at`, whose exception is modelled as
`none`. -/
def ratioPairs (kptsPrev kptsCurr : List KeyPoint)
    (kptMatches : List DMatch) : Option (List (ℚ × ℚ)) :=
  kptMatches.dropLast.foldlM (fun acc m1 => do
    let kpOuterCurr ← atI? kptsCurr m1.trainIdx
    let kpOuterPrev ← atI? kptsPrev m1.queryIdx
    (kptMatches.drop 1).foldlM (fun acc2 m2 => do
      let kpInnerCurr ← atI? kptsCurr m2.trainIdx
      let kpInnerPrev ← atI? kptsPrev m2.queryIdx
      let distCurrSq := distSq kpOuterCurr kpInnerCurr
      let distPrevSq := distSq kpOuterPrev kpInnerPrev
      if distPrevSq > epsDouble ^ 2 ∧ distCurrSq ≥ minDist ^ 2 then
        pure (acc2 ++ [(distPrevSq, distCurrSq)])
      else
        pure acc2) acc) []

/-- The retained distance ratios `distCurr / distPrev` (line 183), as real
numbers: `√distCurr² / √distPrev² = √(distCurr² / distPrev²)` (the retained
pairs all have `distPrev² > 0`). -/
noncomputable def distRatiosR (ps : List (ℚ × ℚ)) : List ℝ :=
  ps.map (fun q => Real.sqrt ((q.2 / q.1 : ℚ) : ℝ))

/-- `std::sort` on the ratio list (line 200). -/
noncomputable def sortR (l : List ℝ) : List ℝ :=
  l.mergeSort (fun a b => decide (a ≤ b))

/-- The median selection of `computeTTCCamera` (lines 199-210): middle
element for odd length, average of the two central elements for even
length, taken from the sorted list. -/
noncomputable def medianOfSorted (l : List ℝ) : ℝ :=
  if l.length % 2 = 1 then
    l.getD ((l.length - 1) / 2) 0
  else
    (l.getD (l.length / 2 - 1) 0 + l.getD (l.length / 2) 0) / 2

/-- `computeTTCCamera` (lines 154-214).  Result layers: outer `none` = a
keypoint lookup threw; inner `none` = the returned double is non-finite
(the explicit `TTC = NAN` of line 192, or the infinity C++ produces when
`1 - medianDistRatio` is zero at line 213, which the model makes explicit
as a branch since exact division by zero has no infinity in `ℝ`). -/
noncomputable def computeTTCCamera (kptsPrev kptsCurr : List KeyPoint)
    (kptMatches : List DMatch) (frameRate : ℚ) : Option (Option ℝ) :=
  (ratioPairs kptsPrev kptsCurr kptMatches).map (fun ps =>
    if ps = [] then
      none
    else
      let sorted := sortR (distRatiosR ps)
      let medianDistRatio := medianOfSorted sorted
      if (1 : ℝ) - medianDistRatio = 0 then
        none
      else
        some (-(1 / (frameRate : ℝ)) / (1 - medianDistRatio)))

/-- `std::sort` on a rational list. -/
def sortQ (l : List ℚ) : List ℚ :=
  l.mergeSort (fun a b => decide (a ≤ b))

/-- `computeTTCLidar` (lines 217-255).  `X_val_curr` collects the forward
coordinates of the current frame; `X_val_prev` is pushed inside the nested
loop, so it holds every previous-frame coordinate once per current-frame
point; `Distance_array` is built and sorted but never read afterwards.
The code then reads index 5 of both sorted lists with `operator[]` and no
bounds check: an out-of-range read is undefined behaviour, modelled as
`Except.error ()`.  A zero denominator in the final division would make the
returned double non-finite, modelled as `Except.ok none`. -/
def computeTTCLidar (lidarPointsPrev lidarPointsCurr : List LidarPoint)
    (frameRate : ℚ) : Except Unit (Option ℚ) :=
  let distanceArray :=
    lidarPointsCurr.flatMap (fun c => lidarPointsPrev.map (fun p => p.x - c.x))
  let xValCurr := lidarPointsCurr.map (fun c => c.x)
  let xValPrev :=
    lidarPointsCurr.flatMap (fun _ => lidarPointsPrev.map (fun p => p.x))
  let _sortedDistances := sortQ distanceArray
  match (sortQ xValPrev).get? 5, (sortQ xValCurr).get? 5 with
  | some p5, some c5 =>
    let medianVelocity := p5 - c5
    if medianVelocity * frameRate = 0 then
      Except.ok none
    else
      Except.ok (some (c5 / (medianVelocity * frameRate)))
  | _, _ => Except.error ()

/-- `DataFrame` from `dataStructures.h`: only the two fields read by
`matchBoundingBoxes` are modelled. -/
structure DataFrame where
  keypoints : List KeyPoint
  boundingBoxes : List BoundingBox

/-- `std::map<int,int>::insert`: keeps the existing entry when the key is
already present.  Modelled as an association list with unique keys (the
traversal order of `std::map` is irrelevant here, only `find`/lookup is). -/
def mapInsert (m : List (ℤ × ℤ)) (k v : ℤ) : List (ℤ × ℤ) :=
  if (m.lookup k).isSome then m else (k, v) :: m

/-- Result of `matchBoundingBoxes`: the map built so far, plus a flag that
records whether an out-of-range `operator[]` access (undefined behaviour in
C++) aborted the loop.  The map is kept even on abort because the out
parameter already holds the entries inserted before the faulting access. -/
structure MBBResult where
  entries : List (ℤ × ℤ)
  aborted : Bool

/-- One iteration of the triple loop of `matchBoundingBoxes`
(lines 266-294), for match index `i`, previous-box index `j` and
current-box index `k`.  Exactly as in the source: `roi_curr` is read from
`currFrame.boundingBoxes[i]` (the match index, not `k`), and
`pt_current_frame` is read from `prevFrame.keypoints[train_ind]` (the
previous frame, with the current frame's index).  Any out-of-range access
sets `aborted`. -/
def mbbIter (dmatches : List DMatch) (prevFrame currFrame : DataFrame)
    (st : MBBResult) (i j k : ℕ) : MBBResult :=
  match prevFrame.boundingBoxes.get? j, currFrame.boundingBoxes.get? i,
        dmatches.get? i with
  | some boxPrev, some boxCurrAtI, some m =>
    match atI? prevFrame.keypoints m.queryIdx,
          atI? prevFrame.keypoints m.trainIdx with
    | some ptPreviousFrame, some ptCurrentFrame =>
      if boxPrev.roi.containsQ (ptPreviousFrame.ptx, ptPreviousFrame.pty) &&
         boxCurrAtI.roi.containsQ (ptCurrentFrame.ptx, ptCurrentFrame.pty) then
        match currFrame.boundingBoxes.get? k with
        | some boxCurrAtK =>
          { st with entries := mapInsert st.entries boxPrev.boxID boxCurrAtK.boxID }
        | none => { st with aborted := true }
      else
        st
    | _, _ => { st with aborted := true }
  | _, _, _ => { st with aborted := true }

/-- `matchBoundingBoxes` (lines 258-295): first inserts the three fixed
entries `{1, count}` (with `count = 1`), `{3, 3}` and `{5, 3}` into the out
map, then runs the triple loop over matches, previous boxes and current
boxes.  Once an undefined access has occurred the remaining iterations are
not modelled (`aborted` short-circuits). -/
def matchBoundingBoxes (dmatches : List DMatch)
    (prevFrame currFrame : DataFrame) : MBBResult :=
  let m0 := mapInsert (mapInsert (mapInsert [] 1 1) 3 3) 5 3
  (List.range dmatches.length).foldl (fun st i =>
    (List.range prevFrame.boundingBoxes.length).foldl (fun st j =>
      (List.range currFrame.boundingBoxes.length).foldl (fun st k =>
        if st.aborted then st else mbbIter dmatches prevFrame currFrame st i j k)
        st) st)
    { entries := m0, aborted := false }

/-- Modelled from the spec (section 4.4), for comparison with the code:
whether the keypoint at index `kIdx` of `frame` lies inside (the unshrunk
rectangle of) the bounding box of `frame` with identifier `boxId`. -/
def kpInBox (frame : DataFrame) (kIdx : ℤ) (boxId : ℤ) : Bool :=
  match atI? frame.keypoints kIdx with
  | some kp =>
    (frame.boundingBoxes.filter (fun b => b.boxID == boxId)).any
      (fun b => b.roi.containsQ (kp.ptx, kp.pty))
  | none => false

/-- Modelled from the spec (section 4.4): the number of correspondence
votes for the region pair `(prevId, currId)` — correspondences whose
previous keypoint lies in the previous-frame region `prevId` and whose
current keypoint lies in the current-frame region `currId`. -/
def specVoteCount (dmatches : List DMatch) (prevFrame currFrame : DataFrame)
    (prevId currId : ℤ) : ℕ :=
  (dmatches.filter (fun m =>
    kpInBox prevFrame m.queryIdx prevId && kpInBox currFrame m.trainIdx currId)).length

/-! ### Concrete inputs used by the claim theorems -/

/-- Previous-frame region "A" (identifier 10) of the synthetic matcher
scene: its rectangle covers all previous-frame keypoints. -/
def boxA : BoundingBox := ⟨10, ⟨0, 0, 20, 20⟩, [], [], []⟩

/-- Current-frame region "X" (identifier 20): receives 5 correspondence
votes from region A. -/
def boxX : BoundingBox := ⟨20, ⟨100, 0, 20, 20⟩, [], [], []⟩

/-- Current-frame region "Y" (identifier 21): receives 2 correspondence
votes from region A. -/
def boxY : BoundingBox := ⟨21, ⟨200, 0, 20, 20⟩, [], [], []⟩

/-- Filler current-frame region far from every keypoint, present only so
that the source's out-of-range read `currFrame.boundingBoxes[i]` (indexed
by the match counter) stays in range for all 7 matches. -/
def fillerBox (n : ℤ) : BoundingBox := ⟨n, ⟨1000, 1000, 1, 1⟩, [], [], []⟩

/-- Previous frame of the synthetic matcher scene: 7 keypoints, all inside
region A. -/
def prevFrameC2 : DataFrame :=
  ⟨[⟨5, 5⟩, ⟨5, 6⟩, ⟨5, 7⟩, ⟨5, 8⟩, ⟨5, 9⟩, ⟨5, 10⟩, ⟨5, 11⟩], [boxA]⟩

/-- Current frame of the synthetic matcher scene: keypoints 0-4 inside
region X, keypoints 5-6 inside region Y. -/
def currFrameC2 : DataFrame :=
  ⟨[⟨105, 1⟩, ⟨105, 2⟩, ⟨105, 3⟩, ⟨105, 4⟩, ⟨105, 5⟩, ⟨205, 1⟩, ⟨205, 2⟩],
   [boxX, boxY, fillerBox 22, fillerBox 23, fillerBox 24, fillerBox 25, fillerBox 26]⟩

/-- The 7 correspondences of the synthetic matcher scene (keypoint `i` of
the previous frame tracks keypoint `i` of the current frame). -/
def matchesC2 : List DMatch :=
  [⟨0, 0⟩, ⟨1, 1⟩, ⟨2, 2⟩, ⟨3, 3⟩, ⟨4, 4⟩, ⟨5, 5⟩, ⟨6, 6⟩]

/-- Previous frame for the zero-vote scene: one region with identifier 1,
no keypoints. -/
def prevFrameC3 : DataFrame := ⟨[], [⟨1, ⟨0, 0, 10, 10⟩, [], [], []⟩]⟩

/-- Current frame for the zero-vote scene: one region with identifier 2,
no keypoints. -/
def currFrameC3 : DataFrame := ⟨[], [⟨2, ⟨0, 0, 10, 10⟩, [], [], []⟩]⟩

/-- Target region for the keypoint-associator input: rectangle
`(0,0)-(10,10)`, collections empty. -/
def kptBoxC6 : BoundingBox := ⟨7, ⟨0, 0, 10, 10⟩, [], [], []⟩

/-! ### Claim theorems: the matcher and the estimator failure modes -/

/-- C1: the range TTC estimator is claimed to fail with a non-finite result
when either collection has fewer points than the configured rank index (5).
The code instead indexes the sorted forward-axis lists at rank 5 with no
bounds check.  First conjunct: a previous collection of a single point
(fewer than the rank requires) still produces a finite TTC, because the
nested push loop replicates the previous coordinates once per current
point — no failure is reported.  Second conjunct: with one point in each
collection the code reads index 5 of one-element vectors, an out-of-bounds
access (undefined behaviour), not a reported non-finite result. -/
theorem computeTTCLidar_rank_unchecked :
    computeTTCLidar [⟨10, 0, 0, 0⟩] (List.replicate 6 ⟨4, 0, 0, 0⟩) 10 =
      Except.ok (some (1 / 15)) ∧
    computeTTCLidar [⟨5, 0, 0, 0⟩] [⟨4, 0, 0, 0⟩] 10 = Except.error () := by
  constructor <;>
    norm_num [computeTTCLidar, sortQ, List.mergeSort, List.replicate, List.flatMap]

/-- C4: the point projector is claimed to check the transformed depth and
fail explicitly when it is zero.  The code performs the perspective
division unguarded: on a point whose transformed depth is zero (first
conjunct) it still produces a pixel (second conjunct; in the exact model
the junk pixel `(0,0)`, in C++ a non-finite quotient converted to `int`),
instead of failing. -/
theorem projectPoint_unguarded_zero_depth :
    (projectY idMat34 idMat44 idMat44 ⟨1, 2, 0, 0⟩).v2 = 0 ∧
    projectPoint idMat34 idMat44 idMat44 ⟨1, 2, 0, 0⟩ = (0, 0) := by
  constructor <;>
    norm_num [projectPoint, projectY, Mat34.apply, Mat44.apply, idMat34, idMat44,
      truncQ]

/-- C6: the region-keypoint associator is claimed to evaluate every
correspondence and append every one whose current-frame keypoint lies in
the region's rectangle.  The code's loop starts at `begin() + 1`, skipping
the first correspondence: for a single-element match list whose
current-frame keypoint lies inside the rectangle (first conjunct), the box
is returned unchanged with empty collections (second conjunct) instead of
receiving the correspondence. -/
theorem clusterKptMatches_skips_first_match :
    Rect.containsQ kptBoxC6.roi (2, 2) = true ∧
    clusterKptMatchesWithROI kptBoxC6 [⟨1, 1⟩] [⟨2, 2⟩] [⟨0, 0⟩] = some kptBoxC6 := by
  constructor
  · decide
  · decide

/-- C3: a previous-frame region with zero correspondence votes is claimed
to produce no entry in the mapping.  In the zero-vote scene the previous
frame's only region has identifier 1 and there are no matches at all
(first conjunct: zero votes toward the only current region), yet the
output contains the hardcoded entry `1 ↦ 1` (third conjunct), because the
code unconditionally inserts `{1, count}`, `{3, 3}`, `{5, 3}` before the
voting loop. -/
theorem matchBoundingBoxes_entry_despite_zero_votes :
    specVoteCount [] prevFrameC3 currFrameC3 1 2 = 0 ∧
    (matchBoundingBoxes [] prevFrameC3 currFrameC3).aborted = false ∧
    (matchBoundingBoxes [] prevFrameC3 currFrameC3).entries.lookup 1 = some 1 := by
  refine ⟨rfl, ?_, ?_⟩ <;> decide

set_option maxRecDepth 16000 in
/-- C2: the cross-frame matcher is claimed to map each previous region to
the current region with the highest vote count (here region A, id 10, has
5 votes for X, id 20, and 2 for Y, id 21 — first two conjuncts), so A must
map to X.  The code instead inserts hardcoded entries and tests the
previous-frame keypoint against `currFrame.boundingBoxes[i]` (indexed by
the match counter): on this scene the loop completes without undefined
access (third conjunct) and produces no entry at all for region 10
(fourth conjunct). -/
theorem matchBoundingBoxes_ignores_vote_counts :
    specVoteCount matchesC2 prevFrameC2 currFrameC2 10 20 = 5 ∧
    specVoteCount matchesC2 prevFrameC2 currFrameC2 10 21 = 2 ∧
    (matchBoundingBoxes matchesC2 prevFrameC2 currFrameC2).aborted = false ∧
    (matchBoundingBoxes matchesC2 prevFrameC2 currFrameC2).entries.lookup 10 = none := by
  refine ⟨?_, ?_, ?_, ?_⟩ <;> decide

/-! ### Lemmas about the lidar point associator -/

/-- Fallback box for positional indexing in statements (never actually
selected, since all indices stay in range). -/
def defaultBox : BoundingBox := ⟨0, ⟨0, 0, 0, 0⟩, [], [], []⟩

theorem enclosesB_pushLidar (s : ℚ) (pt : ℤ × ℤ) (p : LidarPoint) (b : BoundingBox) :
    enclosesB s pt (pushLidar p b) = enclosesB s pt b := rfl

/-- Counting enclosing shrunk rectangles over the ROI list equals counting
enclosing boxes. -/
theorem length_filter_rois (s : ℚ) (pt : ℤ × ℤ) (bs : List BoundingBox) :
    ((bs.map (fun b2 => b2.roi)).filter
      (fun r2 => (shrinkRect s r2).containsI pt)).length =
      (bs.filter (enclosesB s pt)).length := by
  induction bs with
  | nil => rfl
  | cons b t ih =>
    simp only [List.map_cons, List.filter_cons]
    cases h : (shrinkRect s b.roi).containsI pt
    · simpa [enclosesB, h] using ih
    · simpa [enclosesB, h] using ih

/-- `clusterStep` never touches a box's ROI. -/
theorem clusterStep_map_roi (s : ℚ) (P : Mat34) (R RT : Mat44)
    (bs : List BoundingBox) (p : LidarPoint) :
    (clusterStep s P R RT bs p).map (fun b2 => b2.roi) = bs.map (fun b2 => b2.roi) := by
  simp only [clusterStep]
  split
  · rw [List.map_map]
    refine List.map_congr_left ?_
    intro b _
    by_cases h : enclosesB s (projectPoint P R RT p) b <;> simp [h, pushLidar]
  · rfl

/-- Characterization of `clusterLidarWithROI`: every box keeps its other
fields and receives, appended to its point collection, exactly the input
points whose projection lies in its shrunk ROI and in exactly one shrunk
ROI of the frame. -/
theorem clusterLidarWithROI_eq (s : ℚ) (P : Mat34) (R RT : Mat44) :
    ∀ (pts : List LidarPoint) (bs : List BoundingBox),
      clusterLidarWithROI bs pts s P R RT =
        bs.map (fun b =>
          { b with lidarPoints := b.lidarPoints ++
              assignedPoints s P R RT (bs.map (fun b2 => b2.roi)) b.roi pts }) := by
  intro pts
  induction pts with
  | nil =>
    intro bs
    simp [clusterLidarWithROI, assignedPoints]
  | cons p pts ih =>
    intro bs
    have hstep : clusterLidarWithROI bs (p :: pts) s P R RT =
        clusterLidarWithROI (clusterStep s P R RT bs p) pts s P R RT := rfl
    rw [hstep, ih, clusterStep_map_roi]
    by_cases hcount : (bs.filter (enclosesB s (projectPoint P R RT p))).length = 1
    · simp only [clusterStep, if_pos hcount]
      rw [List.map_map]
      refine List.map_congr_left ?_
      intro b _
      have hdec : ((bs.map (fun b2 => b2.roi)).filter
          (fun r2 => (shrinkRect s r2).containsI (projectPoint P R RT p))).length = 1 := by
        rw [length_filter_rois]; exact hcount
      by_cases h : enclosesB s (projectPoint P R RT p) b
      · have hpred : assignedPred s P R RT (bs.map (fun b2 => b2.roi)) b.roi p = true := by
          simp only [assignedPred, Bool.and_eq_true, decide_eq_true_eq]
          exact ⟨h, hdec⟩
        simp [assignedPoints, List.filter_cons, hpred, pushLidar, h, List.append_assoc]
      · have hpred : assignedPred s P R RT (bs.map (fun b2 => b2.roi)) b.roi p = false := by
          have h2 : (shrinkRect s b.roi).containsI (projectPoint P R RT p) = false := by
            simpa [enclosesB] using h
          simp [assignedPred, h2]
        simp [assignedPoints, List.filter_cons, hpred, h]
    · simp only [clusterStep, if_neg hcount]
      refine List.map_congr_left ?_
      intro b _
      have hne : ((bs.map (fun b2 => b2.roi)).filter
          (fun r2 => (shrinkRect s r2).containsI (projectPoint P R RT p))).length ≠ 1 := by
        rw [length_filter_rois]; exact hcount
      have hpred : assignedPred s P R RT (bs.map (fun b2 => b2.roi)) b.roi p = false := by
        simp [assignedPred, hne]
      simp [assignedPoints, List.filter_cons, hpred]

/-- If two distinct positions of a list satisfy a predicate, the filtered
list has at least two elements. -/
theorem two_le_length_filter {α : Type} (p : α → Bool) :
    ∀ (l : List α) (i j : ℕ) (hi : i < l.length) (hj : j < l.length), i ≠ j →
      p (l.get ⟨i, hi⟩) = true → p (l.get ⟨j, hj⟩) = true →
      2 ≤ (l.filter p).length := by
  intro l
  induction l with
  | nil =>
    intro i j hi
    exact absurd hi (by simp)
  | cons a t ih =>
    intro i j hi hj hij hpi hpj
    cases i with
    | zero =>
      cases j with
      | zero => exact absurd rfl hij
      | succ j2 =>
        have hpa : p a = true := hpi
        have hj2 : j2 < t.length := by simpa using hj
        have hmem : t.get ⟨j2, hj2⟩ ∈ t.filter p :=
          List.mem_filter.mpr ⟨List.get_mem t j2 hj2, hpj⟩
        have hlen : 0 < (t.filter p).length :=
          List.length_pos.mpr (fun hnil => by simp [hnil] at hmem)
        simp only [List.filter_cons, hpa, if_true, List.length_cons]
        omega
    | succ i2 =>
      cases j with
      | zero =>
        have hpa : p a = true := hpj
        have hi2 : i2 < t.length := by simpa using hi
        have hmem : t.get ⟨i2, hi2⟩ ∈ t.filter p :=
          List.mem_filter.mpr ⟨List.get_mem t i2 hi2, hpi⟩
        have hlen : 0 < (t.filter p).length :=
          List.length_pos.mpr (fun hnil => by simp [hnil] at hmem)
        simp only [List.filter_cons, hpa, if_true, List.length_cons]
        omega
      | succ j2 =>
        have hi2 : i2 < t.length := by simpa using hi
        have hj2 : j2 < t.length := by simpa using hj
        have hij2 : i2 ≠ j2 := fun he => hij (by rw [he])
        have h2 := ih i2 j2 hi2 hj2 hij2 hpi hpj
        cases hpa : p a <;> simp only [List.filter_cons, hpa] <;> simp <;> omega

/-- `getD` through a `map`, at an in-range index. -/
theorem getD_map_eq {α β : Type} (f : α → β) (l : List α) (i : ℕ)
    (h : i < l.length) (d : β) : (l.map f).getD i d = f (l.get ⟨i, h⟩) := by
  have hm : i < (l.map f).length := by simpa using h
  rw [List.getD_eq_get?, List.get?_map, List.get?_eq_get h]
  rfl

/-- C10: region-point association leaves every region's identifier,
rectangle and keypoint collections unchanged (the shrink computation works
on a local copy of the rectangle); only the lidar point collections are
modified. -/
theorem clusterLidar_preserves_boxes (bs : List BoundingBox)
    (pts : List LidarPoint) (s : ℚ) (P : Mat34) (R RT : Mat44) :
    (clusterLidarWithROI bs pts s P R RT).map
        (fun b => (b.boxID, b.roi, b.kptMatches, b.keypoints)) =
      bs.map (fun b => (b.boxID, b.roi, b.kptMatches, b.keypoints)) := by
  rw [clusterLidarWithROI_eq, List.map_map]
  rfl

/-- C5: for fresh regions and any shrink factor in `[0, 1)`, after
region-point association every region's point collection is a subset of
the input points, no point value appears in two distinct regions'
collections, and a point whose projection falls inside zero or more than
one shrunk rectangle is assigned to no region. -/
theorem clusterLidar_assignment_invariants
    (bs : List BoundingBox) (pts : List LidarPoint) (s : ℚ)
    (P : Mat34) (R RT : Mat44) (out : List BoundingBox)
    (hs0 : 0 ≤ s) (hs1 : s < 1)
    (hempty : ∀ b ∈ bs, b.lidarPoints = [])
    (hout : out = clusterLidarWithROI bs pts s P R RT) :
    (∀ b ∈ out, ∀ p ∈ b.lidarPoints, p ∈ pts) ∧
    (∀ i ∈ List.range out.length, ∀ j ∈ List.range out.length, i ≠ j →
      ∀ p ∈ (out.getD i defaultBox).lidarPoints,
        p ∉ (out.getD j defaultBox).lidarPoints) ∧
    (∀ p ∈ pts, (bs.filter (enclosesB s (projectPoint P R RT p))).length ≠ 1 →
      ∀ b ∈ out, p ∉ b.lidarPoints) := by
  subst hout
  rw [clusterLidarWithROI_eq]
  refine ⟨?_, ?_, ?_⟩
  · intro b hb p hp
    obtain ⟨b0, hb0, rfl⟩ := List.mem_map.mp hb
    simp only [hempty b0 hb0, List.nil_append] at hp
    exact List.mem_of_mem_filter hp
  · intro i hi j hj hij p hpi hpj
    rw [List.mem_range, List.length_map] at hi hj
    rw [getD_map_eq _ _ _ hi, hempty _ (List.get_mem bs i hi), List.nil_append] at hpi
    rw [getD_map_eq _ _ _ hj, hempty _ (List.get_mem bs j hj), List.nil_append] at hpj
    have hpredi := List.of_mem_filter hpi
    have hpredj := List.of_mem_filter hpj
    simp only [assignedPred, Bool.and_eq_true, decide_eq_true_eq] at hpredi hpredj
    have hroii : ((bs.map (fun b2 => b2.roi)).get
        ⟨i, by simpa using hi⟩) = (bs.get ⟨i, hi⟩).roi := by
      rw [List.get_map]
    have hroij : ((bs.map (fun b2 => b2.roi)).get
        ⟨j, by simpa using hj⟩) = (bs.get ⟨j, hj⟩).roi := by
      rw [List.get_map]
    have h2 := two_le_length_filter
      (fun r2 => (shrinkRect s r2).containsI (projectPoint P R RT p))
      (bs.map (fun b2 => b2.roi)) i j (by simpa using hi) (by simpa using hj) hij
      (by rw [hroii]; exact hpredi.1) (by rw [hroij]; exact hpredj.1)
    have hc := hpredi.2
    omega
  · intro p hp hcnt b hb hmem
    obtain ⟨b0, hb0, rfl⟩ := List.mem_map.mp hb
    simp only [hempty b0 hb0, List.nil_append] at hmem
    have hpred := List.of_mem_filter hmem
    simp only [assignedPred, Bool.and_eq_true, decide_eq_true_eq] at hpred
    rw [length_filter_rois] at hpred
    exact hcnt hpred.2

/-- Witness for C5 at a concrete scene: one box with empty collection, one
lidar point, shrink factor 0, identity calibration. -/
theorem clusterLidar_assignment_invariants_witness :
    (0 ≤ (0 : ℚ)) ∧ ((0 : ℚ) < 1) ∧ (∀ b ∈ [boxA], b.lidarPoints = []) ∧
    (∀ b ∈ clusterLidarWithROI [boxA] [⟨2, 3, 1, 0⟩] 0 idMat34 idMat44 idMat44,
      ∀ p ∈ b.lidarPoints, p ∈ [(⟨2, 3, 1, 0⟩ : LidarPoint)]) :=
  ⟨le_refl 0, by norm_num, by decide,
    (clusterLidar_assignment_invariants [boxA] [⟨2, 3, 1, 0⟩] 0 idMat34 idMat44
      idMat44 _ (le_refl 0) (by norm_num) (by decide) rfl).1⟩

/-! ### Lemmas about the cross-frame matcher -/

/-- `std::map::insert` never overwrites: any key already present keeps its
value. -/
theorem lookup_mapInsert (m : List (ℤ × ℤ)) (k v k0 : ℤ)
    (h : (m.lookup k0).isSome) :
    (mapInsert m k v).lookup k0 = m.lookup k0 := by
  unfold mapInsert
  split
  · rfl
  · rename_i hk
    have hne : (k0 == k) = false := by
      by_cases he : k0 = k
      · subst he
        exact absurd h hk
      · simpa using he
    show List.lookup k0 ((k, v) :: m) = List.lookup k0 m
    rw [List.lookup]
    simp [hne]

/-- A single iteration of the matcher loop preserves every key already
present in the map (it only ever calls first-wins insert). -/
theorem mbbIter_preserves_lookup (dmatches : List DMatch)
    (prevFrame currFrame : DataFrame) (st : MBBResult) (i j k : ℕ) (k0 : ℤ)
    (h : (st.entries.lookup k0).isSome) :
    (mbbIter dmatches prevFrame currFrame st i j k).entries.lookup k0 =
      st.entries.lookup k0 := by
  unfold mbbIter
  split
  · split
    · split
      · split
        · exact lookup_mapInsert _ _ _ _ h
        · rfl
      · rfl
    · rfl
  · rfl

/-- Folding a step that preserves a property preserves it. -/
theorem foldl_preserves {α β : Type} (P : β → Prop) (f : β → α → β)
    (hf : ∀ b a, P b → P (f b a)) :
    ∀ (l : List α) (b : β), P b → P (l.foldl f b) := by
  intro l
  induction l with
  | nil => intro b hb; exact hb
  | cons a t ih => intro b hb; exact ih (f b a) (hf b a hb)

/-- C9: whatever the matches, keypoints and bounding boxes supplied, the
mapping produced by `matchBoundingBoxes` contains the fixed entries
`1 ↦ 1`, `3 ↦ 3` and `5 ↦ 3` inserted before the loop (later first-wins
inserts can never change them). -/
theorem matchBoundingBoxes_fixed_entries (dmatches : List DMatch)
    (prevFrame currFrame : DataFrame) :
    (matchBoundingBoxes dmatches prevFrame currFrame).entries.lookup 1 = some 1 ∧
    (matchBoundingBoxes dmatches prevFrame currFrame).entries.lookup 3 = some 3 ∧
    (matchBoundingBoxes dmatches prevFrame currFrame).entries.lookup 5 = some 3 := by
  have key : ∀ st : MBBResult,
      (st.entries.lookup 1 = some 1 ∧ st.entries.lookup 3 = some 3 ∧
        st.entries.lookup 5 = some 3) →
      ∀ i j k, (mbbIter dmatches prevFrame currFrame st i j k).entries.lookup 1 = some 1 ∧
        (mbbIter dmatches prevFrame currFrame st i j k).entries.lookup 3 = some 3 ∧
        (mbbIter dmatches prevFrame currFrame st i j k).entries.lookup 5 = some 3 := by
    intro st hst i j k
    refine ⟨?_, ?_, ?_⟩
    · rw [mbbIter_preserves_lookup dmatches prevFrame currFrame st i j k 1
        (by rw [hst.1]; rfl)]
      exact hst.1
    · rw [mbbIter_preserves_lookup dmatches prevFrame currFrame st i j k 3
        (by rw [hst.2.1]; rfl)]
      exact hst.2.1
    · rw [mbbIter_preserves_lookup dmatches prevFrame currFrame st i j k 5
        (by rw [hst.2.2]; rfl)]
      exact hst.2.2
  unfold matchBoundingBoxes
  refine foldl_preserves
    (fun (st : MBBResult) => st.entries.lookup 1 = some 1 ∧
      st.entries.lookup 3 = some 3 ∧ st.entries.lookup 5 = some 3) _ ?_ _ _ ?_
  · intro st i hst
    refine foldl_preserves
      (fun (st2 : MBBResult) => st2.entries.lookup 1 = some 1 ∧
        st2.entries.lookup 3 = some 3 ∧ st2.entries.lookup 5 = some 3) _ ?_ _ _ hst
    intro st2 j hst2
    refine foldl_preserves
      (fun (st3 : MBBResult) => st3.entries.lookup 1 = some 1 ∧
        st3.entries.lookup 3 = some 3 ∧ st3.entries.lookup 5 = some 3) _ ?_ _ _ hst2
    intro st3 k hst3
    split
    · exact hst3
    · exact key st3 hst3 i j k
  · exact ⟨by decide, by decide, by decide⟩

/-! ### Lemmas about the camera TTC estimator -/

/-- When the filtering retains no pair, `computeTTCCamera` reports the
non-finite sentinel and nothing else. -/
theorem ttcCamera_of_ratioPairs_nil (kptsPrev kptsCurr : List KeyPoint)
    (kptMatches : List DMatch) (frameRate : ℚ)
    (h : ratioPairs kptsPrev kptsCurr kptMatches = some []) :
    computeTTCCamera kptsPrev kptsCurr kptMatches frameRate = some none := by
  unfold computeTTCCamera
  rw [h]
  rfl

/-- Sorting a constant list leaves it unchanged. -/
theorem sortR_replicate (n : ℕ) (c : ℝ) :
    sortR (List.replicate n c) = List.replicate n c := by
  unfold sortR
  have hperm := List.mergeSort_perm (List.replicate n c) (fun a b => decide (a ≤ b))
  refine List.eq_replicate_iff.mpr ⟨?_, ?_⟩
  · rw [hperm.length_eq, List.length_replicate]
  · intro b hb
    exact List.eq_of_mem_replicate (hperm.mem_iff.mp hb)

/-- Previous-frame keypoints for the insufficient-evidence scene. -/
def kptsPrevSmall : List KeyPoint := [⟨0, 0⟩, ⟨1, 0⟩]

/-- Current-frame keypoints for the insufficient-evidence scene: the only
pair distance is 2 pixels, below the 100-pixel minimum separation. -/
def kptsCurrSmall : List KeyPoint := [⟨0, 0⟩, ⟨2, 0⟩]

/-- The two correspondences of the insufficient-evidence scene. -/
def matchesSmall : List DMatch := [⟨0, 0⟩, ⟨1, 1⟩]

/-- C8: whenever no distance ratio survives the filtering, the image TTC
estimator reports a non-finite TTC (`NAN`) and performs no further
computation — it neither returns zero nor crashes. -/
theorem computeTTCCamera_insufficient_evidence (kptsPrev kptsCurr : List KeyPoint)
    (kptMatches : List DMatch) (frameRate : ℚ)
    (h : ratioPairs kptsPrev kptsCurr kptMatches = some []) :
    computeTTCCamera kptsPrev kptsCurr kptMatches frameRate = some none :=
  ttcCamera_of_ratioPairs_nil kptsPrev kptsCurr kptMatches frameRate h

/-- Witness for C8: a two-match scene whose only pair is filtered out by
the minimum-separation threshold. -/
theorem computeTTCCamera_insufficient_evidence_witness :
    ratioPairs kptsPrevSmall kptsCurrSmall matchesSmall = some [] ∧
    computeTTCCamera kptsPrevSmall kptsCurrSmall matchesSmall 10 = some none := by
  have h : ratioPairs kptsPrevSmall kptsCurrSmall matchesSmall = some [] := by
    norm_num [ratioPairs, atI?, distSq, epsDouble, minDist, kptsPrevSmall,
      kptsCurrSmall, matchesSmall, List.foldlM_cons, List.foldlM_nil, List.dropLast]
  exact ⟨h, computeTTCCamera_insufficient_evidence kptsPrevSmall kptsCurrSmall
    matchesSmall 10 h⟩

/-- Previous-frame keypoints: a square of side 10. -/
def sqPrev10 : List KeyPoint := [⟨0, 0⟩, ⟨10, 0⟩, ⟨10, 10⟩, ⟨0, 10⟩]

/-- Current-frame keypoints: the same square scaled by 0.8 (side 8). -/
def sqCurr8 : List KeyPoint := [⟨0, 0⟩, ⟨8, 0⟩, ⟨8, 8⟩, ⟨0, 8⟩]

/-- The four correspondences of the square scenes (corner `i` tracks
corner `i`). -/
def matchesSquare : List DMatch := [⟨0, 0⟩, ⟨1, 1⟩, ⟨2, 2⟩, ⟨3, 3⟩]

/-- Previous-frame keypoints: a square of side 125. -/
def sqPrev125 : List KeyPoint := [⟨0, 0⟩, ⟨125, 0⟩, ⟨125, 125⟩, ⟨0, 125⟩]

/-- Current-frame keypoints: the same square scaled by 0.8 (side 100, so
every current-frame pair distance reaches the 100-pixel minimum
separation). -/
def sqCurr100 : List KeyPoint := [⟨0, 0⟩, ⟨100, 0⟩, ⟨100, 100⟩, ⟨0, 100⟩]

/-- Counterexample to C7 as stated: on the claimed square scene (side 10
shrinking to side 8, 10 Hz) every current-frame pair distance (at most
`8√2 ≈ 11.3`) is below the code's 100-pixel minimum separation, so no
ratio survives and the estimator returns the non-finite sentinel, not
`TTC = −0.5`. -/
theorem computeTTCCamera_square10_8_filtered_out :
    computeTTCCamera sqPrev10 sqCurr8 matchesSquare 10 = some none ∧
    some (none : Option ℝ) ≠ some (some (-(1 : ℝ) / 2)) := by
  constructor
  · refine ttcCamera_of_ratioPairs_nil _ _ _ _ ?_
    norm_num [ratioPairs, atI?, distSq, epsDouble, minDist, sqPrev10, sqCurr8,
      matchesSquare, List.foldlM_cons, List.foldlM_nil, List.dropLast, Int.toNat]
  · simp

/-- C7 (amended): the image TTC estimator computes
`TTC = −Δt / (1 − medianRatio)` over the retained ratios; on a square of
side 125 in the previous frame and side 100 in the current frame (large
enough that every current-frame pair distance reaches the 100-pixel
minimum separation) at 10 Hz, the retained ratios are all `0.8`, the
median is `0.8`, and `TTC = −0.1 / (1 − 0.8) = −0.5`. -/
theorem computeTTCCamera_median_formula_scaled :
    computeTTCCamera sqPrev125 sqCurr100 matchesSquare 10 =
      some (some (-(1 : ℝ) / 2)) := by
  have hp : ratioPairs sqPrev125 sqCurr100 matchesSquare =
      some [(15625, 10000), (31250, 20000), (15625, 10000), (15625, 10000),
            (31250, 20000), (15625, 10000), (15625, 10000)] := by
    norm_num [ratioPairs, atI?, distSq, epsDouble, minDist, sqPrev125, sqCurr100,
      matchesSquare, List.foldlM_cons, List.foldlM_nil, List.dropLast, Int.toNat]
  have hr : distRatiosR [(15625, 10000), (31250, 20000), (15625, 10000),
      (15625, 10000), (31250, 20000), (15625, 10000), (15625, 10000)] =
      List.replicate 7 (Real.sqrt ((16 : ℝ) / 25)) := by
    norm_num [distRatiosR, List.replicate]
  have hsq : Real.sqrt ((16 : ℝ) / 25) = 4 / 5 := by
    have h1 : ((16 : ℝ) / 25) = (4 / 5 : ℝ) ^ 2 := by norm_num
    rw [h1, Real.sqrt_sq (by norm_num : (0 : ℝ) ≤ 4 / 5)]
  have hmed : medianOfSorted (List.replicate 7 ((4 : ℝ) / 5)) = 4 / 5 := by
    norm_num [medianOfSorted, List.replicate, List.getD_eq_get?]
  unfold computeTTCCamera
  rw [hp]
  simp only [Option.map]
  rw [if_neg (by simp)]
  rw [hr, hsq, sortR_replicate, hmed]
  rw [if_neg (by norm_num : ¬((1 : ℝ) - 4 / 5 = 0))]
  norm_num
